import Mathlib

/-!
Verification of the River v2.0 python client core (river/types.py, codec.py,
streams.py, session.py, transport.py, client.py) against its specification.

The Python code is shallowly embedded: dynamically-typed Python values are the
inductive `PVal`, JSON documents are `JVal`, and the stateful objects
(`Session`, `Readable`, `WebSocketClientTransport`) become records with their
methods as pure state-transition functions.  Asynchronous timers and socket
I/O are outside the embedding; functions record requested I/O effects
(wire sends, close requests, dispatched events) explicitly in their results.
-/

namespace River

/-- Python values that can appear in message payloads and wire dictionaries:
None, bools, (unbounded) ints, strings, byte strings, lists, and dicts
(modelled as association lists in insertion order, keys unique). -/
inductive PVal where
  | null : PVal
  | bool : Bool → PVal
  | int : Int → PVal
  | str : String → PVal
  | bytes : List Nat → PVal
  | list : List PVal → PVal
  | map : List (String × PVal) → PVal

/-- JSON documents, the output domain of `json.dumps` and input of `json.loads`
(floats are not used by the client core). -/
inductive JVal where
  | null : JVal
  | bool : Bool → JVal
  | int : Int → JVal
  | str : String → JVal
  | arr : List JVal → JVal
  | obj : List (String × JVal) → JVal

/-! Base64 (model of Python `base64.b64encode` / `base64.b64decode`, used by
the JSON codec for its byte-string sentinel). -/

/-- The standard base64 alphabet. -/
def b64Alphabet : List Char :=
  "ABCDEFGHIJKLMNOPQRSTUVWXYZabcdefghijklmnopqrstuvwxyz0123456789+/".toList

/-- Character for a sextet. -/
def b64EncChar (s : Nat) : Char := b64Alphabet.getD s 'A'

/-- Sextet for a character; `none` for characters outside the alphabet. -/
def b64DecChar (c : Char) : Option Nat := b64Alphabet.findIdx? (fun x => x = c)

/-- Encode a byte list into base64 characters, 3 bytes per 4 characters,
padding the final partial group with `=`. -/
def b64EncodeList : List Nat → List Char
  | a :: b :: c :: rest =>
      b64EncChar (a / 4) :: b64EncChar (a % 4 * 16 + b / 16) ::
      b64EncChar (b % 16 * 4 + c / 64) :: b64EncChar (c % 64) :: b64EncodeList rest
  | [a, b] =>
      [b64EncChar (a / 4), b64EncChar (a % 4 * 16 + b / 16), b64EncChar (b % 16 * 4), '=']
  | [a] => [b64EncChar (a / 4), b64EncChar (a % 4 * 16), '=', '=']
  | [] => []

/-- Characters `b64decode` keeps (binascii discards all others before
decoding). -/
def b64KeepChar (c : Char) : Bool := b64Alphabet.contains c || c = '='

/-- Decode groups of 4 base64 characters; padding is only legal in the final
group. -/
def b64DecodeChunks : List Char → Option (List Nat)
  | [] => some []
  | c1 :: c2 :: c3 :: c4 :: rest =>
      if c3 = '=' then
        if c4 = '=' ∧ rest = [] then do
          let s1 ← b64DecChar c1
          let s2 ← b64DecChar c2
          some [s1 * 4 + s2 / 16]
        else none
      else if c4 = '=' then
        if rest = [] then do
          let s1 ← b64DecChar c1
          let s2 ← b64DecChar c2
          let s3 ← b64DecChar c3
          some [s1 * 4 + s2 / 16, s2 % 16 * 16 + s3 / 4]
        else none
      else do
        let s1 ← b64DecChar c1
        let s2 ← b64DecChar c2
        let s3 ← b64DecChar c3
        let s4 ← b64DecChar c4
        let tail ← b64DecodeChunks rest
        some ((s1 * 4 + s2 / 16) :: (s2 % 16 * 16 + s3 / 4) :: (s3 % 4 * 64 + s4) :: tail)
  | _ => none

/-- Model of `base64.b64decode`: discard foreign characters, then decode;
fails when the remaining length is not a multiple of 4. -/
def b64Decode (cs : List Char) : Option (List Nat) := b64DecodeChunks (cs.filter b64KeepChar)

/-- Model of `base64.b64encode(...).decode("ascii")`. -/
def b64encodeStr (bs : List Nat) : String := String.mk (b64EncodeList bs)

/-- Model of `base64.b64decode` on a string. -/
def b64decodeStr (s : String) : Option (List Nat) := b64Decode s.toList

/-! JSON codec (`NaiveJsonCodec` with `_CustomEncoder` and
`_custom_object_hook`).  The textual `json.dumps` / `json.loads` layer is the
standard library's and is trusted as an inverse pair; what the repository adds
— and what is modelled here — is the value transformation: `_CustomEncoder`
turns every byte string into the single-key object with key dollar-t holding
its base64, and `_custom_object_hook` runs bottom-up on every decoded object,
turning single-key dollar-t objects back into bytes and single-key dollar-b
objects into ints. -/

mutual

/-- Model of `_CustomEncoder.default`: a Python value as the JSON document
`json.dumps` serializes (bytes become the base64 sentinel object). -/
def jencode : PVal → JVal
  | .null => .null
  | .bool b => .bool b
  | .int n => .int n
  | .str s => .str s
  | .bytes bs => .obj [("$t", .str (b64encodeStr bs))]
  | .list xs => .arr (jencodeList xs)
  | .map kvs => .obj (jencodeKVs kvs)

def jencodeList : List PVal → List JVal
  | [] => []
  | x :: xs => jencode x :: jencodeList xs

def jencodeKVs : List (String × PVal) → List (String × JVal)
  | [] => []
  | (k, v) :: kvs => (k, jencode v) :: jencodeKVs kvs

end

/-- Model of `int(x)` as applied by the object hook to the dollar-b value. -/
def pyInt : PVal → Option Int
  | .str s => s.toInt?
  | .int n => some n
  | .bool b => some (if b then 1 else 0)
  | _ => none

/-- Model of `_custom_object_hook`: applied to every decoded object, with the
values already hook-processed. -/
def objectHook : List (String × PVal) → Option PVal
  | [(k, v)] =>
      if k = "$t" then
        match v with
        | .str s => (b64decodeStr s).map PVal.bytes
        | .bytes bs => (b64Decode (bs.map Char.ofNat)).map PVal.bytes
        | _ => none
      else if k = "$b" then (pyInt v).map PVal.int
      else some (.map [(k, v)])
  | kvs => some (.map kvs)

mutual

/-- Model of `json.loads(..., object_hook=_custom_object_hook)` past the
trusted textual parse: fold the hook bottom-up over the document. -/
def jdecode : JVal → Option PVal
  | .null => some .null
  | .bool b => some (.bool b)
  | .int n => some (.int n)
  | .str s => some (.str s)
  | .arr xs =>
      match jdecodeList xs with
      | some ys => some (.list ys)
      | none => none
  | .obj kvs =>
      match jdecodeKVs kvs with
      | some ys => objectHook ys
      | none => none

def jdecodeList : List JVal → Option (List PVal)
  | [] => some []
  | x :: xs =>
      match jdecode x, jdecodeList xs with
      | some y, some ys => some (y :: ys)
      | _, _ => none

def jdecodeKVs : List (String × JVal) → Option (List (String × PVal))
  | [] => some []
  | (k, v) :: kvs =>
      match jdecode v, jdecodeKVs kvs with
      | some y, some ys => some ((k, y) :: ys)
      | _, _ => none

end

/-- A dict shape the object hook treats specially: exactly one entry whose key
is dollar-t or dollar-b. -/
def isSentinelShape : List (String × PVal) → Bool
  | [(k, _)] => k = "$t" || k = "$b"
  | _ => false

mutual

/-- Well-formed Python values whose JSON encoding is faithful: every byte is a
real byte (below 256) and no dict collides with the sentinel shapes. -/
def pyGood : PVal → Bool
  | .bytes bs => bs.all (fun x => x < 256)
  | .list xs => pyGoodList xs
  | .map kvs => !isSentinelShape kvs && pyGoodKVs kvs
  | _ => true

def pyGoodList : List PVal → Bool
  | [] => true
  | x :: xs => pyGood x && pyGoodList xs

def pyGoodKVs : List (String × PVal) → Bool
  | [] => true
  | (_, v) :: kvs => pyGood v && pyGoodKVs kvs

end

/-! Control flags and result helpers (river/types.py). -/

/-- ControlFlags.AckBit: heartbeat/ack only. -/
def AckBit : Nat := 1

/-- ControlFlags.StreamOpenBit: first message of a stream. -/
def StreamOpenBit : Nat := 2

/-- ControlFlags.StreamCancelBit: abrupt cancel with error payload. -/
def StreamCancelBit : Nat := 4

/-- ControlFlags.StreamClosedBit: last message of a stream. -/
def StreamClosedBit : Nat := 8

/-- Model of `is_ack`. -/
def is_ack (flags : Nat) : Bool := flags &&& AckBit == AckBit

/-- Model of `is_stream_open`. -/
def is_stream_open (flags : Nat) : Bool := flags &&& StreamOpenBit == StreamOpenBit

/-- Model of `is_stream_cancel`. -/
def is_stream_cancel (flags : Nat) : Bool := flags &&& StreamCancelBit == StreamCancelBit

/-- Model of `is_stream_close`. -/
def is_stream_close (flags : Nat) : Bool := flags &&& StreamClosedBit == StreamClosedBit

/-- Protocol error code for a dead session or a closed transport. -/
def UNEXPECTED_DISCONNECT_CODE : String := "UNEXPECTED_DISCONNECT"

/-- Protocol error code for a cancelled stream. -/
def CANCEL_CODE : String := "CANCEL"

/-- The protocol version the client speaks. -/
def PROTOCOL_VERSION : String := "v2.0"

/-- Model of `ok_result`. -/
def ok_result (payload : PVal) : PVal :=
  .map [("ok", .bool true), ("payload", payload)]

/-- Model of `err_result`. -/
def err_result (code message : String) (extras : Option PVal) : PVal :=
  .map [("ok", .bool false),
        ("payload", .map ([("code", .str code), ("message", .str message)] ++
          (match extras with
           | some e => [("extras", e)]
           | none => [])))]

/-! The wire envelope (river/types.py TransportMessage).  Python stores
dynamically-typed fields; the model gives each field its protocol type, so
`from_dict` additionally checks wire types, which the Python code leaves to
its type annotations. -/

/-- The envelope for all messages sent over the wire. -/
structure TransportMessage where
  id : String
  from_ : String
  to_ : String
  seq : Nat
  ack : Nat
  payload : PVal
  stream_id : String
  control_flags : Nat := 0
  service_name : Option String := none
  procedure_name : Option String := none
  tracing : Option (List (String × String)) := none

/-- A transport message missing id, from, to, seq, ack — filled in by
`Session.construct_msg`. -/
structure PartialTransportMessage where
  payload : PVal
  stream_id : String
  control_flags : Nat := 0
  service_name : Option String := none
  procedure_name : Option String := none
  tracing : Option (List (String × String)) := none

/-- Python dict lookup `d.get(k)` on an association list (keys unique, first
match wins). -/
def dictGet (kvs : List (String × PVal)) (k : String) : Option PVal :=
  (kvs.find? (fun kv => kv.1 = k)).map (fun kv => kv.2)

/-- Model of `TransportMessage.to_dict`: the wire dictionary, optional fields
present only when not None. -/
def TransportMessage.to_dict (m : TransportMessage) : List (String × PVal) :=
  [("id", .str m.id), ("from", .str m.from_), ("to", .str m.to_),
   ("seq", .int m.seq), ("ack", .int m.ack), ("payload", m.payload),
   ("streamId", .str m.stream_id), ("controlFlags", .int m.control_flags)] ++
  (match m.service_name with
   | some s => [("serviceName", PVal.str s)]
   | none => []) ++
  (match m.procedure_name with
   | some s => [("procedureName", PVal.str s)]
   | none => []) ++
  (match m.tracing with
   | some t => [("tracing", PVal.map (t.map (fun kv => (kv.1, PVal.str kv.2))))]
   | none => [])

/-- Extract a wire string. -/
def asStr : Option PVal → Option String
  | some (.str s) => some s
  | _ => none

/-- Extract a wire nonnegative integer. -/
def asNat : Option PVal → Option Nat
  | some (.int n) => if 0 ≤ n then some n.toNat else none
  | _ => none

/-- Extract an optional wire string (absent is fine and maps to None). -/
def asOptStr : Option PVal → Option (Option String)
  | none => some none
  | some (.str s) => some (some s)
  | some _ => none

/-- Entries of a string-to-string wire dict. -/
def strEntries : List (String × PVal) → Option (List (String × String))
  | [] => some []
  | (k, .str s) :: rest => (strEntries rest).map (fun t => (k, s) :: t)
  | _ => none

/-- Extract an optional tracing dict. -/
def asOptTracing : Option PVal → Option (Option (List (String × String)))
  | none => some none
  | some (.map kvs) => (strEntries kvs).map some
  | some _ => none

/-- Model of `TransportMessage.from_dict`: read each wire key; `controlFlags`
defaults to 0, optional keys default to None. -/
def TransportMessage.from_dict (kvs : List (String × PVal)) : Option TransportMessage := do
  let id ← asStr (dictGet kvs "id")
  let from_ ← asStr (dictGet kvs "from")
  let to_ ← asStr (dictGet kvs "to")
  let seq ← asNat (dictGet kvs "seq")
  let ack ← asNat (dictGet kvs "ack")
  let payload ← dictGet kvs "payload"
  let stream_id ← asStr (dictGet kvs "streamId")
  let control_flags ←
    match dictGet kvs "controlFlags" with
    | none => some 0
    | v => asNat v
  let service_name ← asOptStr (dictGet kvs "serviceName")
  let procedure_name ← asOptStr (dictGet kvs "procedureName")
  let tracing ← asOptTracing (dictGet kvs "tracing")
  some { id := id, from_ := from_, to_ := to_, seq := seq, ack := ack,
         payload := payload, stream_id := stream_id, control_flags := control_flags,
         service_name := service_name, procedure_name := procedure_name,
         tracing := tracing }

/-! Codec layer (river/codec.py).  A codec takes a Python value to wire bytes
and back; the textual/binary byte level is the standard library's, so a codec
is modelled by its value transformation with an abstract wire type. -/

/-- Abstract codec: `to_buffer`/`from_buffer` of the `Codec` ABC, with
decoding failures (exceptions) as `none`. -/
structure Codec (Wire : Type) where
  to_buffer : PVal → Wire
  from_buffer : Wire → Option PVal

/-- `NaiveJsonCodec`: the textual `json.dumps`/`json.loads` pair is trusted,
so the wire type is the JSON document; the codec's own content is the byte
sentinel encoding and the object hook. -/
def jsonCodec : Codec JVal :=
  { to_buffer := jencode, from_buffer := jdecode }

/-- `BinaryCodec` (msgpack): maps/lists/ints/strings/bytes are native msgpack,
`packb`/`unpackb` are trusted as an inverse pair, so the codec is the
identity on Python values. -/
def binaryCodec : Codec PVal :=
  { to_buffer := fun v => v, from_buffer := fun v => some v }

/-- The required wire keys checked by `CodecMessageAdapter.from_buffer`
(`controlFlags` is not among them). -/
def requiredFields : List String := ["id", "from", "to", "seq", "ack", "payload", "streamId"]

/-- Model of `CodecMessageAdapter.from_buffer`: decode, require a dict,
require the required keys, then `TransportMessage.from_dict`. -/
def CodecMessageAdapter.from_buffer {W : Type} (c : Codec W) (buf : W) :
    Except String TransportMessage :=
  match c.from_buffer buf with
  | none => .error "Failed to deserialize message"
  | some raw =>
      match raw with
      | .map kvs =>
          match requiredFields.find? (fun f => (dictGet kvs f).isNone) with
          | some f => .error ("Missing required field: " ++ f)
          | none =>
              match TransportMessage.from_dict kvs with
              | some m => .ok m
              | none => .error "Failed to deserialize message"
      | _ => .error "Expected dict"

/-- Model of `CodecMessageAdapter.to_buffer` (serialization of a constructed
message never throws: every `PVal` is serializable). -/
def CodecMessageAdapter.to_buffer {W : Type} (c : Codec W) (m : TransportMessage) : W :=
  c.to_buffer (.map m.to_dict)

/-! Session layer (river/session.py).  Timers (heartbeat, heartbeat-miss,
grace) are asyncio tasks outside the embedding; the seq/ack bookkeeping,
send buffer, state machine flags, and message construction are modelled.
`generate_id()` draws randomness, so every constructing operation takes the
fresh id as an explicit argument. -/

/-- Session state machine states. -/
inductive SessionState where
  | NoConnection
  | BackingOff
  | Connecting
  | Handshaking
  | Connected
  deriving DecidableEq

/-- A River session: seq/ack bookkeeping, send buffer, state machine, and the
boolean shadows of the connection handle and lifecycle flags. -/
structure Session where
  id : String
  from_id : String
  to_id : String
  seq : Nat
  ack : Nat
  send_buffer : List TransportMessage
  state : SessionState
  ws_present : Bool
  is_actively_heartbeating : Bool
  destroyed : Bool

/-- A fresh session as `Session.__init__` builds it. -/
def Session.init (session_id from_id to_id : String) : Session :=
  { id := session_id, from_id := from_id, to_id := to_id, seq := 0, ack := 0,
    send_buffer := [], state := .NoConnection, ws_present := false,
    is_actively_heartbeating := false, destroyed := false }

/-- Model of `Session.next_seq`: the seq of the first unacked buffered
message, or the session seq when the buffer is empty. -/
def Session.next_seq (s : Session) : Nat :=
  match s.send_buffer with
  | [] => s.seq
  | m :: _ => m.seq

/-- Model of `Session.construct_msg`: fill in id/from/to/seq/ack and
increment seq. -/
def Session.construct_msg (s : Session) (newId : String) (p : PartialTransportMessage) :
    TransportMessage × Session :=
  ({ id := newId, from_ := s.from_id, to_ := s.to_id, seq := s.seq, ack := s.ack,
     payload := p.payload, stream_id := p.stream_id, control_flags := p.control_flags,
     service_name := p.service_name, procedure_name := p.procedure_name,
     tracing := p.tracing },
   { s with seq := s.seq + 1 })

/-- Model of `Session.send`: construct, append to the send buffer, and write
to the socket only when connected (the returned flag).  Serialization of a
constructed message cannot fail in the model, so `send` always succeeds. -/
def Session.send (s : Session) (newId : String) (p : PartialTransportMessage) :
    Session × TransportMessage × Bool :=
  let (msg, s1) := s.construct_msg newId p
  let s2 := { s1 with send_buffer := s1.send_buffer ++ [msg] }
  (s2, msg, s2.state = SessionState.Connected ∧ s2.ws_present)

/-- Model of `Session.update_bookkeeping`: drop acknowledged messages from
the send buffer and advance our ack (the heartbeat-miss timer reset is a
timer effect outside the embedding). -/
def Session.update_bookkeeping (s : Session) (their_ack their_seq : Nat) : Session :=
  { s with send_buffer := s.send_buffer.filter (fun m => their_ack ≤ m.seq),
           ack := their_seq + 1 }

/-- Model of `ack_payload`. -/
def ack_payload : PVal := .map [("type", .str "ACK")]

/-- Model of `close_payload`. -/
def close_payload : PVal := .map [("type", .str "CLOSE")]

/-- Model of `heartbeat_message`. -/
def heartbeat_message : PartialTransportMessage :=
  { payload := ack_payload, stream_id := "heartbeat", control_flags := AckBit }

/-- Model of `close_stream_message`. -/
def close_stream_message (stream_id : String) : PartialTransportMessage :=
  { payload := close_payload, stream_id := stream_id, control_flags := StreamClosedBit }

/-- Model of `cancel_message`. -/
def cancel_message (stream_id : String) (error_payload : PVal) : PartialTransportMessage :=
  { payload := error_payload, stream_id := stream_id, control_flags := StreamCancelBit }

/-- Model of `Session.send_heartbeat`. -/
def Session.send_heartbeat (s : Session) (newId : String) :
    Session × TransportMessage × Bool :=
  s.send newId heartbeat_message

/-- Model of `handshake_request_payload`. -/
def handshake_request_payload (session_id : String) (next_expected_seq next_sent_seq : Nat)
    (metadata : Option PVal) : PVal :=
  .map ([("type", .str "HANDSHAKE_REQ"),
         ("protocolVersion", .str PROTOCOL_VERSION),
         ("sessionId", .str session_id),
         ("expectedSessionState",
          .map [("nextExpectedSeq", .int next_expected_seq),
                ("nextSentSeq", .int next_sent_seq)])] ++
        (match metadata with
         | some md => [("metadata", md)]
         | none => []))

/-- Model of `Session.create_handshake_request`. -/
def Session.create_handshake_request (s : Session) (newId : String)
    (metadata : Option PVal) : TransportMessage :=
  { id := newId, from_ := s.from_id, to_ := s.to_id, seq := 0, ack := 0,
    payload := handshake_request_payload s.id s.ack s.next_seq metadata,
    stream_id := "handshake", control_flags := 0 }

/-! Readable (river/streams.py).  Waiter futures are scheduling artefacts; the
state is the queue and the closed/broken/locked flags.  `_iterate` (and the
equivalent `_ReadableIterator`) is modelled as the sequence of values one
uninterrupted iteration yields together with whether it terminates (rather
than suspending for more data). -/

/-- Readable stream state. -/
structure Readable where
  queue : List PVal
  closed : Bool
  broken : Bool
  locked : Bool

/-- A fresh readable as `Readable.__init__` builds it. -/
def Readable.init : Readable :=
  { queue := [], closed := false, broken := false, locked := false }

/-- Model of `Readable._push_value`: fails (raises) on a closed readable. -/
def Readable.push_value (r : Readable) (v : PVal) : Option Readable :=
  if r.closed then none else some { r with queue := r.queue ++ [v] }

/-- Model of `Readable._trigger_close`: fails (raises) when already closed. -/
def Readable.trigger_close (r : Readable) : Option Readable :=
  if r.closed then none else some { r with closed := true }

/-- Model of `Readable.is_closed`. -/
def Readable.is_closed (r : Readable) : Bool := r.closed && r.queue.isEmpty

/-- The synthesized error a broken readable yields. -/
def readableBrokenError : PVal := err_result "READABLE_BROKEN" "stream was broken" none

/-- Model of `Readable.break_`. -/
def Readable.break_ (r : Readable) : Readable :=
  if r.locked ∧ r.broken then r
  else
    let r1 := { r with locked := true }
    if r1.closed && r1.queue.isEmpty then r1
    else { r1 with broken := true, queue := [] }

/-- Model of one uninterrupted run of `Readable._iterate`: the values yielded
and whether iteration terminates (false means it would suspend waiting for
more data). -/
def Readable.iterate (r : Readable) : List PVal × Bool :=
  if r.broken then ([readableBrokenError], true)
  else (r.queue, r.closed)

/-! Retry budget (river/transport.py LeakyBucketRateLimit).  Millisecond
quantities are rationals; `random.random()` becomes an explicit argument in
the unit interval. -/

/-- Leaky-bucket rate limiter state and parameters. -/
structure LeakyBucketRateLimit where
  base_interval_ms : ℚ := 150
  max_jitter_ms : ℚ := 200
  max_backoff_ms : ℚ := 32000
  attempt_budget_capacity : Nat := 5
  budget_restore_interval_ms : ℚ := 200
  budget_consumed : Nat := 0

/-- Model of `has_budget`. -/
def LeakyBucketRateLimit.has_budget (b : LeakyBucketRateLimit) : Bool :=
  b.budget_consumed < b.attempt_budget_capacity

/-- Model of `get_backoff_ms`; `rand` is the `random.random()` draw. -/
def LeakyBucketRateLimit.get_backoff_ms (b : LeakyBucketRateLimit) (rand : ℚ) : ℚ :=
  if b.budget_consumed = 0 then 0
  else
    let exponent := max 0 (b.budget_consumed - 1)
    let jitter := rand * b.max_jitter_ms
    let backoff := min (b.base_interval_ms * 2 ^ exponent) b.max_backoff_ms
    backoff + jitter

/-- Model of `consume_budget` (stopping the restore task is a timer effect). -/
def LeakyBucketRateLimit.consume_budget (b : LeakyBucketRateLimit) : LeakyBucketRateLimit :=
  { b with budget_consumed := b.budget_consumed + 1 }

/-! Transport (river/transport.py WebSocketClientTransport).  The async
connection tasks, the event bus listener registry, and the read loop are
outside the embedding; the session map, status, retry budget, and the
synchronous state transitions are modelled, with dispatched events and
requested socket operations recorded in results. -/

/-- Client transport state. -/
structure WebSocketClientTransport where
  status : String
  client_id : String
  server_id : String
  sessions : List (String × Session)
  retry_budget : LeakyBucketRateLimit
  reconnect_on_connection_drop : Bool
  connect_on_invoke : Bool

/-- Current session for a peer id. -/
def WebSocketClientTransport.getSession (t : WebSocketClientTransport) (to_ : String) :
    Option Session :=
  (t.sessions.find? (fun kv => kv.1 = to_)).map (fun kv => kv.2)

/-- Replace (or insert) the session for a peer id. -/
def WebSocketClientTransport.setSession (t : WebSocketClientTransport) (to_ : String)
    (s : Session) : WebSocketClientTransport :=
  if (t.sessions.find? (fun kv => kv.1 = to_)).isSome then
    { t with sessions := t.sessions.map (fun kv => if kv.1 = to_ then (to_, s) else kv) }
  else
    { t with sessions := t.sessions ++ [(to_, s)] }

/-- Model of `_get_or_create_session`; `freshId` is the generated session id
used when no session exists (the `sessionStatus created` event is dispatched
by the caller's event bus, outside this state). -/
def WebSocketClientTransport.get_or_create_session (t : WebSocketClientTransport)
    (to_ freshId : String) : WebSocketClientTransport × Session :=
  match t.getSession to_ with
  | some s => (t, s)
  | none =>
      let s := Session.init freshId t.client_id to_
      (t.setSession to_ s, s)

/-- One call of the closure returned by `get_session_bound_send_fn`: re-look
up the session each time and fail with a session-scope-ended error when it is
gone, replaced, or destroyed; otherwise delegate to `Session.send`. -/
def WebSocketClientTransport.session_bound_send (t : WebSocketClientTransport)
    (to_ session_id : String) (newId : String) (p : PartialTransportMessage) :
    Except String (WebSocketClientTransport × String) :=
  match t.getSession to_ with
  | none => .error "Session scope ended (closed)"
  | some s =>
      if s.id ≠ session_id ∨ s.destroyed = true then .error "Session scope ended (transition)"
      else
        let (s1, msg, _) := s.send newId p
        .ok (t.setSession to_ s1, msg.id)

/-- Result of the message-data path: the updated session, the messages
dispatched on the `message` event, the `protocolError` payload messages, and
whether a close of the underlying connection was requested. -/
structure MessageDataOutcome where
  session : Session
  dispatched : List TransportMessage
  protocol_errors : List String
  ws_close_requested : Bool

/-- Model of `_on_message_data` after decode: enforce `msg.seq == session.ack`
(drop duplicates silently; close the connection on future seqs), then update
bookkeeping, dispatch non-heartbeat messages, and echo a heartbeat for
swallowed heartbeats when the session is not actively heartbeating.
`echoId` is the generated id for the possible echo. -/
def on_message_decoded (s : Session) (echoId : String) (msg : TransportMessage) :
    MessageDataOutcome :=
  if msg.seq ≠ s.ack then
    if msg.seq < s.ack then
      { session := s, dispatched := [], protocol_errors := [], ws_close_requested := false }
    else
      { session := s, dispatched := [], protocol_errors := [],
        ws_close_requested := s.ws_present }
  else
    let s1 := s.update_bookkeeping msg.ack msg.seq
    if is_ack msg.control_flags = false then
      { session := s1, dispatched := [msg], protocol_errors := [],
        ws_close_requested := false }
    else if s1.is_actively_heartbeating = false then
      let (s2, _, _) := s1.send_heartbeat echoId
      { session := s2, dispatched := [], protocol_errors := [], ws_close_requested := false }
    else
      { session := s1, dispatched := [], protocol_errors := [], ws_close_requested := false }

/-- Model of `_on_message_data` from raw bytes: decode failures dispatch an
`invalid_message` protocol error and change nothing else. -/
def on_message_data {W : Type} (c : Codec W) (s : Session) (echoId : String) (raw : W) :
    MessageDataOutcome :=
  match CodecMessageAdapter.from_buffer c raw with
  | .error e =>
      { session := s, dispatched := [], protocol_errors := [e], ws_close_requested := false }
  | .ok msg => on_message_decoded s echoId msg

/-- Model of the synchronous prefix of `WebSocketClientTransport.connect`:
no-op when the transport is closed or the session is not in NoConnection;
with no budget only a `conn_retry_exceeded` protocol error is dispatched;
otherwise budget is consumed and the session backs off (the sleep, socket
open, and handshake run in a spawned task outside the embedding).
`freshId` is the id for a newly created session. -/
def WebSocketClientTransport.connect_sync (t : WebSocketClientTransport)
    (to_ freshId : String) : WebSocketClientTransport :=
  if t.status ≠ "open" then t
  else
    let (t1, s) := t.get_or_create_session to_ freshId
    if s.state ≠ SessionState.NoConnection then t1
    else if t1.retry_budget.has_budget = false then t1
    else
      let t2 := { t1 with retry_budget := t1.retry_budget.consume_budget }
      t2.setSession to_ { s with state := SessionState.BackingOff }

/-! Client dispatch (river/client.py RiverClient._handle_proc).  Listener
registration, the abort watcher, and the per-message handlers are event-bus
callbacks outside this state; the synchronous dispatch decision — the
closed-transport short-circuit, session/send-function acquisition, the init
envelope, and the writable's initial state — is modelled.  Fresh random ids
(session, stream, init message) are explicit arguments. -/

/-- Procedure shapes. -/
inductive ProcType where
  | rpc
  | stream
  | upload
  | subscription
  deriving DecidableEq

/-- Shapes whose request side closes at dispatch time. -/
def proc_closes_with_init (pt : ProcType) : Bool :=
  pt = ProcType.rpc || pt = ProcType.subscription

/-- What `_handle_proc` returns, together with the transport state it leaves
behind and the envelopes written to the network during dispatch. -/
structure HandleProcResult where
  res_readable : Readable
  req_writable_closed : Bool
  transport : WebSocketClientTransport
  wire_sent : List TransportMessage

/-- Model of `RiverClient._handle_proc`. -/
def handle_proc (t : WebSocketClientTransport) (pt : ProcType)
    (service_name procedure_name : String) (init : PVal)
    (freshSessionId streamId initMsgId : String) : HandleProcResult :=
  if t.status ≠ "open" then
    { res_readable :=
        { queue := [err_result UNEXPECTED_DISCONNECT_CODE "transport is closed" none],
          closed := true, broken := false, locked := false },
      req_writable_closed := true, transport := t, wire_sent := [] }
  else
    let t1 := if t.connect_on_invoke then t.connect_sync t.server_id freshSessionId else t
    let (t2, s) := t1.get_or_create_session t1.server_id freshSessionId
    let pInit : PartialTransportMessage :=
      { payload := init, stream_id := streamId,
        control_flags :=
          if proc_closes_with_init pt then StreamOpenBit ||| StreamClosedBit
          else StreamOpenBit,
        service_name := some service_name, procedure_name := some procedure_name }
    match t2.session_bound_send t1.server_id s.id initMsgId pInit with
    | .error _ =>
        { res_readable :=
            { queue := [err_result UNEXPECTED_DISCONNECT_CODE
                (t1.server_id ++ " unexpectedly disconnected") none],
              closed := true, broken := false, locked := false },
          req_writable_closed := true, transport := t2, wire_sent := [] }
    | .ok (t3, _) =>
        let (_, msg, wired) := s.send initMsgId pInit
        { res_readable := Readable.init,
          req_writable_closed := proc_closes_with_init pt,
          transport := t3,
          wire_sent := if wired then [msg] else [] }

/-- Operations that touch a session's seq/ack bookkeeping from the client
code: `Session.send` (with its generated envelope id) and
`Session.update_bookkeeping` with the peer envelope's ack and seq. -/
inductive SessionOp where
  | send (newId : String) (p : PartialTransportMessage)
  | update (their_ack their_seq : Nat)

/-- Apply one operation to a session, also accumulating every envelope ever
constructed for the session (specification ghost state). -/
def applySessionOp : Session × List TransportMessage → SessionOp →
    Session × List TransportMessage
  | (s, all), .send newId p =>
      let (s1, msg, _) := s.send newId p
      (s1, all ++ [msg])
  | (s, all), .update their_ack their_seq =>
      (s.update_bookkeeping their_ack their_seq, all)

/-- Run a sequence of send/update operations from a session, tracking all
constructed envelopes. -/
def runSessionOps (s0 : Session) (ops : List SessionOp) :
    Session × List TransportMessage :=
  ops.foldl applySessionOp (s0, [])

/-- Specification predicate: the constructed envelopes carry consecutive seqs
from 0, the session seq counts them, and the send buffer is a final segment
of the constructed list. -/
def SendBufferInv : Session × List TransportMessage → Prop
  | (s, all) =>
      ∃ k, k ≤ all.length ∧ s.send_buffer = all.drop k ∧ s.seq = all.length ∧
        ∀ i, (h : i < all.length) → (all.get ⟨i, h⟩).seq = i

/-- Tracing dicts that do not collide with the JSON decoder's sentinel
shapes (specification predicate for the round-trip statement). -/
def tracingGood : Option (List (String × String)) → Bool
  | none => true
  | some t => !isSentinelShape (t.map (fun kv => (kv.1, PVal.str kv.2)))

/-! Supporting theorems: base64 and JSON value round trips. -/

theorem b64DecodeChunks_cons (c1 c2 c3 c4 : Char) (rest : List Char) :
    b64DecodeChunks (c1 :: c2 :: c3 :: c4 :: rest) =
      (if c3 = '=' then
        if c4 = '=' ∧ rest = [] then do
          let s1 ← b64DecChar c1
          let s2 ← b64DecChar c2
          some [s1 * 4 + s2 / 16]
        else none
      else if c4 = '=' then
        if rest = [] then do
          let s1 ← b64DecChar c1
          let s2 ← b64DecChar c2
          let s3 ← b64DecChar c3
          some [s1 * 4 + s2 / 16, s2 % 16 * 16 + s3 / 4]
        else none
      else do
        let s1 ← b64DecChar c1
        let s2 ← b64DecChar c2
        let s3 ← b64DecChar c3
        let s4 ← b64DecChar c4
        let tail ← b64DecodeChunks rest
        some ((s1 * 4 + s2 / 16) :: (s2 % 16 * 16 + s3 / 4) :: (s3 % 4 * 64 + s4) :: tail)) :=
  rfl

theorem b64DecChar_encChar : ∀ s : Fin 64, b64DecChar (b64EncChar s.val) = some s.val := by
  decide

theorem b64KeepChar_encChar : ∀ s : Fin 64, b64KeepChar (b64EncChar s.val) = true := by
  decide

theorem b64EncChar_ne_pad : ∀ s : Fin 64, b64EncChar s.val ≠ '=' := by
  decide

theorem b64DecChar_enc {s : Nat} (h : s < 64) : b64DecChar (b64EncChar s) = some s :=
  b64DecChar_encChar ⟨s, h⟩

theorem b64KeepChar_enc {s : Nat} (h : s < 64) : b64KeepChar (b64EncChar s) = true :=
  b64KeepChar_encChar ⟨s, h⟩

theorem b64EncChar_ne_pad' {s : Nat} (h : s < 64) : b64EncChar s ≠ '=' :=
  b64EncChar_ne_pad ⟨s, h⟩

theorem b64_mem_encode (bs : List Nat) (h : ∀ x ∈ bs, x < 256) :
    ∀ c ∈ b64EncodeList bs, b64KeepChar c = true := by
  induction bs using b64EncodeList.induct with
  | case1 a b c rest ih =>
      have ha : a < 256 := h a (by simp)
      have hb : b < 256 := h b (by simp)
      have hc : c < 256 := h c (by simp)
      have ihr := ih (fun x hx => h x (by simp [hx]))
      intro ch hch
      simp only [b64EncodeList, List.mem_cons] at hch
      rcases hch with rfl | rfl | rfl | rfl | hch
      · exact b64KeepChar_enc (by omega)
      · exact b64KeepChar_enc (by omega)
      · exact b64KeepChar_enc (by omega)
      · exact b64KeepChar_enc (by omega)
      · exact ihr ch hch
  | case2 a b =>
      have ha : a < 256 := h a (by simp)
      have hb : b < 256 := h b (by simp)
      intro ch hch
      simp only [b64EncodeList, List.mem_cons] at hch
      rcases hch with rfl | rfl | rfl | rfl | hch
      · exact b64KeepChar_enc (by omega)
      · exact b64KeepChar_enc (by omega)
      · exact b64KeepChar_enc (by omega)
      · simp [b64KeepChar]
      · simp at hch
  | case3 a =>
      have ha : a < 256 := h a (by simp)
      intro ch hch
      simp only [b64EncodeList, List.mem_cons] at hch
      rcases hch with rfl | rfl | rfl | rfl | hch
      · exact b64KeepChar_enc (by omega)
      · exact b64KeepChar_enc (by omega)
      · simp [b64KeepChar]
      · simp [b64KeepChar]
      · simp at hch
  | case4 =>
      intro ch hch
      simp [b64EncodeList] at hch

theorem b64_filter_encode (bs : List Nat) (h : ∀ x ∈ bs, x < 256) :
    (b64EncodeList bs).filter b64KeepChar = b64EncodeList bs :=
  List.filter_eq_self.mpr (b64_mem_encode bs h)

theorem b64_chunks_encode (bs : List Nat) (h : ∀ x ∈ bs, x < 256) :
    b64DecodeChunks (b64EncodeList bs) = some bs := by
  induction bs using b64EncodeList.induct with
  | case1 a b c rest ih =>
      have ha : a < 256 := h a (by simp)
      have hb : b < 256 := h b (by simp)
      have hc : c < 256 := h c (by simp)
      have ihr := ih (fun x hx => h x (by simp [hx]))
      show b64DecodeChunks
        (b64EncChar (a / 4) :: b64EncChar (a % 4 * 16 + b / 16) ::
          b64EncChar (b % 16 * 4 + c / 64) :: b64EncChar (c % 64) :: b64EncodeList rest) = _
      rw [b64DecodeChunks_cons]
      rw [if_neg (b64EncChar_ne_pad' (by omega)), if_neg (b64EncChar_ne_pad' (by omega))]
      rw [b64DecChar_enc (by omega), b64DecChar_enc (by omega),
        b64DecChar_enc (by omega), b64DecChar_enc (by omega), ihr]
      have e1 : a / 4 * 4 + (a % 4 * 16 + b / 16) / 16 = a := by omega
      have e2 : (a % 4 * 16 + b / 16) % 16 * 16 + (b % 16 * 4 + c / 64) / 4 = b := by omega
      have e3 : (b % 16 * 4 + c / 64) % 4 * 64 + c % 64 = c := by omega
      simp [e1, e2, e3]
  | case2 a b =>
      have ha : a < 256 := h a (by simp)
      have hb : b < 256 := h b (by simp)
      show b64DecodeChunks
        (b64EncChar (a / 4) :: b64EncChar (a % 4 * 16 + b / 16) ::
          b64EncChar (b % 16 * 4) :: '=' :: []) = _
      rw [b64DecodeChunks_cons]
      rw [if_neg (b64EncChar_ne_pad' (by omega)), if_pos rfl, if_pos rfl]
      rw [b64DecChar_enc (by omega), b64DecChar_enc (by omega), b64DecChar_enc (by omega)]
      have e1 : a / 4 * 4 + (a % 4 * 16 + b / 16) / 16 = a := by omega
      simp [e1]
      omega
  | case3 a =>
      have ha : a < 256 := h a (by simp)
      show b64DecodeChunks
        (b64EncChar (a / 4) :: b64EncChar (a % 4 * 16) :: '=' :: '=' :: []) = _
      rw [b64DecodeChunks_cons]
      rw [if_pos rfl, if_pos ⟨rfl, rfl⟩]
      rw [b64DecChar_enc (by omega), b64DecChar_enc (by omega)]
      simp
      omega
  | case4 =>
      rfl

/-- Base64 round trip: decoding an encoded byte list recovers it. -/
theorem b64_roundtrip (bs : List Nat) (h : ∀ x ∈ bs, x < 256) :
    b64Decode (b64EncodeList bs) = some bs := by
  unfold b64Decode
  rw [b64_filter_encode bs h, b64_chunks_encode bs h]

theorem b64decodeStr_encodeStr (bs : List Nat) (h : ∀ x ∈ bs, x < 256) :
    b64decodeStr (b64encodeStr bs) = some bs := by
  unfold b64decodeStr b64encodeStr
  rw [show (String.mk (b64EncodeList bs)).toList = b64EncodeList bs from rfl]
  exact b64_roundtrip bs h

theorem objectHook_of_not_sentinel (kvs : List (String × PVal))
    (h : isSentinelShape kvs = false) : objectHook kvs = some (.map kvs) := by
  match kvs with
  | [] => rfl
  | [(k, v)] =>
      simp only [isSentinelShape, Bool.or_eq_false_iff, decide_eq_false_iff_not] at h
      simp [objectHook, h.1, h.2]
  | (k1, v1) :: (k2, v2) :: rest => rfl

theorem jdecodeList_encodeList (xs : List PVal)
    (ih : ∀ x ∈ xs, jdecode (jencode x) = some x) :
    jdecodeList (jencodeList xs) = some xs := by
  induction xs with
  | nil => rfl
  | cons x xs ihl =>
      rw [jencodeList, jdecodeList, ih x (by simp), ihl (fun y hy => ih y (by simp [hy]))]

theorem jdecodeKVs_encodeKVs (kvs : List (String × PVal))
    (ih : ∀ kv ∈ kvs, jdecode (jencode kv.2) = some kv.2) :
    jdecodeKVs (jencodeKVs kvs) = some kvs := by
  induction kvs with
  | nil => rfl
  | cons kv rest ihl =>
      match kv with
      | (k, v) =>
          rw [jencodeKVs, jdecodeKVs, ih (k, v) (by simp),
            ihl (fun y hy => ih y (by simp [hy]))]

theorem pyGoodList_mem {xs : List PVal} (h : pyGoodList xs = true) :
    ∀ x ∈ xs, pyGood x = true := by
  induction xs with
  | nil => simp
  | cons x rest ih =>
      rw [pyGoodList, Bool.and_eq_true] at h
      intro y hy
      rcases List.mem_cons.mp hy with rfl | hy
      · exact h.1
      · exact ih h.2 y hy

theorem pyGoodKVs_mem {kvs : List (String × PVal)} (h : pyGoodKVs kvs = true) :
    ∀ kv ∈ kvs, pyGood kv.2 = true := by
  induction kvs with
  | nil => simp
  | cons kv rest ih =>
      match kv with
      | (k, v) =>
          rw [pyGoodKVs, Bool.and_eq_true] at h
          intro y hy
          rcases List.mem_cons.mp hy with rfl | hy
          · exact h.1
          · exact ih h.2 y hy

theorem sizeOf_mem_pvalList {x : PVal} {xs : List PVal} (hx : x ∈ xs) :
    sizeOf x < sizeOf (PVal.list xs) := by
  have := List.sizeOf_lt_of_mem hx
  simp only [PVal.list.sizeOf_spec]
  omega

theorem sizeOf_mem_pvalKVs {kv : String × PVal} {kvs : List (String × PVal)} (hx : kv ∈ kvs) :
    sizeOf kv.2 < sizeOf (PVal.map kvs) := by
  have h1 := List.sizeOf_lt_of_mem hx
  have h2 : sizeOf kv.2 < sizeOf kv := by
    match kv with
    | (k, v) =>
        simp only [Prod.mk.sizeOf_spec]
        omega
  simp only [PVal.map.sizeOf_spec]
  omega

theorem jdecode_jencode_bounded :
    ∀ (n : Nat) (v : PVal), sizeOf v ≤ n → pyGood v = true → jdecode (jencode v) = some v := by
  intro n
  induction n with
  | zero =>
      intro v hv _
      exact absurd hv (by cases v <;> simp)
  | succ n ih =>
      intro v hv hg
      match v with
      | .null => rfl
      | .bool b => rfl
      | .int m => rfl
      | .str s => rfl
      | .bytes bs =>
          rw [jencode]
          show (match jdecodeKVs [("$t", .str (b64encodeStr bs))] with
            | some ys => objectHook ys
            | none => none) = some (.bytes bs)
          rw [show jdecodeKVs [("$t", JVal.str (b64encodeStr bs))] =
            some [("$t", PVal.str (b64encodeStr bs))] from rfl]
          show objectHook [("$t", PVal.str (b64encodeStr bs))] = some (.bytes bs)
          have hb : ∀ x ∈ bs, x < 256 := by
            rw [pyGood] at hg
            intro x hx
            have := List.all_eq_true.mp hg x hx
            simpa using this
          rw [objectHook, if_pos rfl, b64decodeStr_encodeStr bs hb]
          rfl
      | .list xs =>
          have hxs : jdecodeList (jencodeList xs) = some xs := by
            apply jdecodeList_encodeList
            intro x hx
            apply ih x
            · have := sizeOf_mem_pvalList hx
              omega
            · exact pyGoodList_mem (by rw [pyGood] at hg; exact hg) x hx
          rw [jencode, jdecode, hxs]
      | .map kvs =>
          rw [pyGood, Bool.and_eq_true, Bool.not_eq_true'] at hg
          have hkvs : jdecodeKVs (jencodeKVs kvs) = some kvs := by
            apply jdecodeKVs_encodeKVs
            intro kv hkv
            apply ih kv.2
            · have := sizeOf_mem_pvalKVs hkv
              omega
            · exact pyGoodKVs_mem hg.2 kv hkv
          rw [jencode, jdecode, hkvs]
          exact objectHook_of_not_sentinel kvs hg.1

/-- JSON value round trip: decoding the encoding of a well-formed Python value
(real bytes, no sentinel-shaped dicts) recovers it. -/
theorem jdecode_jencode (v : PVal) (h : pyGood v = true) : jdecode (jencode v) = some v :=
  jdecode_jencode_bounded (sizeOf v) v (Nat.le_refl _) h

/-! Claim theorems. -/

/-- C6: for every session, the handshake request envelope has seq 0, ack 0,
controlFlags 0, streamId handshake, and its payload is the HANDSHAKE_REQ
object carrying protocolVersion v2.0, the session id, and expectedSessionState
with nextExpectedSeq the session ack and nextSentSeq the seq of the first
buffered envelope when the send buffer is nonempty and the session seq
otherwise; metadata is included only when supplied. -/
theorem create_handshake_request_spec (s : Session) (newId : String)
    (metadata : Option PVal) :
    (s.create_handshake_request newId metadata).seq = 0 ∧
    (s.create_handshake_request newId metadata).ack = 0 ∧
    (s.create_handshake_request newId metadata).control_flags = 0 ∧
    (s.create_handshake_request newId metadata).stream_id = "handshake" ∧
    (s.create_handshake_request newId metadata).payload =
      .map ([("type", .str "HANDSHAKE_REQ"), ("protocolVersion", .str "v2.0"),
             ("sessionId", .str s.id),
             ("expectedSessionState",
              .map [("nextExpectedSeq", .int s.ack), ("nextSentSeq", .int s.next_seq)])] ++
        (match metadata with
         | some md => [("metadata", md)]
         | none => [])) ∧
    (s.send_buffer = [] → s.next_seq = s.seq) ∧
    (∀ m0 rest, s.send_buffer = m0 :: rest → s.next_seq = m0.seq) := by
  refine ⟨rfl, rfl, rfl, rfl, rfl, ?_, ?_⟩
  · intro h
    rw [Session.next_seq, h]
  · intro m0 rest h
    rw [Session.next_seq, h]

/-- Witness for C6 at concrete sessions with an empty and a nonempty send
buffer. -/
theorem create_handshake_request_spec_witness :
    (Session.init "sid" "c" "srv").next_seq = (Session.init "sid" "c" "srv").seq ∧
    ((Session.init "sid" "c" "srv").send "m1"
        { payload := PVal.null, stream_id := "x" }).1.next_seq =
      ({ id := "m1", from_ := "c", to_ := "srv", seq := 0, ack := 0, payload := PVal.null,
         stream_id := "x" } : TransportMessage).seq :=
  ⟨(create_handshake_request_spec (Session.init "sid" "c" "srv") "h" none).2.2.2.2.2.1 rfl,
   (create_handshake_request_spec ((Session.init "sid" "c" "srv").send "m1"
      { payload := PVal.null, stream_id := "x" }).1 "h" none).2.2.2.2.2.2 _ [] rfl⟩

/-- C7: a procedure invocation of any shape on a transport whose status is not
open returns a readable that yields exactly one UNEXPECTED_DISCONNECT error
value and terminates, and an already-closed writable; the transport state
(including the session map) is untouched and nothing is written to the
network. -/
theorem handle_proc_closed_transport (t : WebSocketClientTransport) (pt : ProcType)
    (sn pn : String) (init : PVal) (sid stid mid : String)
    (h : t.status ≠ "open") :
    (handle_proc t pt sn pn init sid stid mid).res_readable.iterate =
      ([err_result UNEXPECTED_DISCONNECT_CODE "transport is closed" none], true) ∧
    (handle_proc t pt sn pn init sid stid mid).req_writable_closed = true ∧
    (handle_proc t pt sn pn init sid stid mid).transport = t ∧
    (handle_proc t pt sn pn init sid stid mid).wire_sent = [] := by
  rw [handle_proc, if_pos h]
  exact ⟨rfl, rfl, rfl, rfl⟩

/-- Witness for C7: an rpc invocation on a concrete closed transport. -/
theorem handle_proc_closed_transport_witness :
    (handle_proc
        { status := "closed", client_id := "c", server_id := "srv", sessions := [],
          retry_budget := {}, reconnect_on_connection_drop := true,
          connect_on_invoke := true }
        ProcType.rpc "test" "add" (PVal.int 1) "S" "st" "m").res_readable.iterate =
      ([err_result UNEXPECTED_DISCONNECT_CODE "transport is closed" none], true) ∧
    (handle_proc
        { status := "closed", client_id := "c", server_id := "srv", sessions := [],
          retry_budget := {}, reconnect_on_connection_drop := true,
          connect_on_invoke := true }
        ProcType.rpc "test" "add" (PVal.int 1) "S" "st" "m").transport.sessions = [] :=
  ⟨(handle_proc_closed_transport _ ProcType.rpc "test" "add" (PVal.int 1) "S" "st" "m"
      (by simp)).1,
   by rw [(handle_proc_closed_transport _ ProcType.rpc "test" "add" (PVal.int 1) "S" "st" "m"
      (by simp)).2.2.1]⟩

/-- C8: the leaky-bucket backoff is exactly 0 at zero consumed budget; at
consumed n at least 1 it is min(base times 2 to the n-1, max backoff) plus a
jitter in the closed interval from 0 to max jitter, hence at n = 1 it lies in
the interval from base to base plus max jitter, and for every n at least 1 it
is at most max backoff plus max jitter; has_budget holds exactly when the
consumed budget is below capacity.  (Parameters are nonnegative durations
with base at most max backoff, as in the constructed bucket.) -/
theorem get_backoff_ms_spec (b : LeakyBucketRateLimit) (rand : ℚ)
    (h0 : 0 ≤ rand) (h1 : rand < 1)
    (hjit : 0 ≤ b.max_jitter_ms) (_hbase : 0 ≤ b.base_interval_ms)
    (hbm : b.base_interval_ms ≤ b.max_backoff_ms) :
    (b.budget_consumed = 0 → b.get_backoff_ms rand = 0) ∧
    (∀ n, b.budget_consumed = n → 1 ≤ n →
        b.get_backoff_ms rand =
          min (b.base_interval_ms * 2 ^ (n - 1)) b.max_backoff_ms + rand * b.max_jitter_ms ∧
        0 ≤ rand * b.max_jitter_ms ∧ rand * b.max_jitter_ms ≤ b.max_jitter_ms) ∧
    (b.budget_consumed = 1 →
        b.base_interval_ms ≤ b.get_backoff_ms rand ∧
        b.get_backoff_ms rand ≤ b.base_interval_ms + b.max_jitter_ms) ∧
    (1 ≤ b.budget_consumed →
        b.get_backoff_ms rand ≤ b.max_backoff_ms + b.max_jitter_ms) ∧
    (b.has_budget = true ↔ b.budget_consumed < b.attempt_budget_capacity) := by
  have hjr0 : 0 ≤ rand * b.max_jitter_ms := mul_nonneg h0 hjit
  have hjr1 : rand * b.max_jitter_ms ≤ b.max_jitter_ms :=
    mul_le_of_le_one_left hjit (le_of_lt h1)
  refine ⟨?_, ?_, ?_, ?_, ?_⟩
  · intro h
    rw [LeakyBucketRateLimit.get_backoff_ms, if_pos h]
  · intro n hn h1n
    rw [LeakyBucketRateLimit.get_backoff_ms, if_neg (by omega)]
    refine ⟨?_, hjr0, hjr1⟩
    simp [hn]
  · intro h
    rw [LeakyBucketRateLimit.get_backoff_ms, if_neg (by omega)]
    simp only [h, Nat.zero_max]
    rw [show (1 : Nat) - 1 = 0 from rfl, pow_zero, mul_one, min_eq_left hbm]
    constructor
    · linarith
    · linarith
  · intro h
    rw [LeakyBucketRateLimit.get_backoff_ms, if_neg (by omega)]
    have := min_le_right (b.base_interval_ms * 2 ^ (max 0 (b.budget_consumed - 1)))
      b.max_backoff_ms
    dsimp only
    linarith
  · rw [LeakyBucketRateLimit.has_budget]
    simp

/-- Witness for C8 at the default parameters with one consumed attempt and
jitter draw one half. -/
theorem get_backoff_ms_spec_witness :
    (⟨150, 200, 32000, 5, 200, 1⟩ : LeakyBucketRateLimit).base_interval_ms ≤
      (⟨150, 200, 32000, 5, 200, 1⟩ : LeakyBucketRateLimit).get_backoff_ms (1 / 2) ∧
    (⟨150, 200, 32000, 5, 200, 1⟩ : LeakyBucketRateLimit).get_backoff_ms (1 / 2) ≤
      (⟨150, 200, 32000, 5, 200, 1⟩ : LeakyBucketRateLimit).base_interval_ms +
        (⟨150, 200, 32000, 5, 200, 1⟩ : LeakyBucketRateLimit).max_jitter_ms :=
  (get_backoff_ms_spec (⟨150, 200, 32000, 5, 200, 1⟩ : LeakyBucketRateLimit) (1 / 2)
    (by norm_num) (by norm_num) (by norm_num) (by norm_num) (by norm_num)).2.2.1 rfl

/-- C9: one call of a session-bound send closure for (peer, session id) fails
with a session-scope-ended error exactly when the transport has no session for
the peer, or the current session's id differs, or the current session is
destroyed; otherwise the message is passed to that session's send. -/
theorem session_bound_send_spec (t : WebSocketClientTransport)
    (to_ sid nid : String) (p : PartialTransportMessage) :
    ((∃ e, t.session_bound_send to_ sid nid p = .error e ∧
        (e = "Session scope ended (closed)" ∨ e = "Session scope ended (transition)")) ↔
      (t.getSession to_ = none ∨
        ∃ s, t.getSession to_ = some s ∧ (s.id ≠ sid ∨ s.destroyed = true))) ∧
    (∀ s, t.getSession to_ = some s → s.id = sid → s.destroyed = false →
      t.session_bound_send to_ sid nid p =
        .ok (t.setSession to_ (s.send nid p).1, (s.send nid p).2.1.id)) := by
  have ev_none : t.getSession to_ = none →
      t.session_bound_send to_ sid nid p = .error "Session scope ended (closed)" := by
    intro hg
    rw [WebSocketClientTransport.session_bound_send, hg]
  have ev_bad : ∀ s, t.getSession to_ = some s → (s.id ≠ sid ∨ s.destroyed = true) →
      t.session_bound_send to_ sid nid p = .error "Session scope ended (transition)" := by
    intro s hg hc
    rw [WebSocketClientTransport.session_bound_send, hg]
    exact if_pos hc
  have ev_ok : ∀ s, t.getSession to_ = some s → ¬ (s.id ≠ sid ∨ s.destroyed = true) →
      t.session_bound_send to_ sid nid p =
        .ok (t.setSession to_ (s.send nid p).1, (s.send nid p).2.1.id) := by
    intro s hg hc
    rw [WebSocketClientTransport.session_bound_send, hg]
    exact if_neg hc
  refine ⟨⟨?_, ?_⟩, ?_⟩
  · rintro ⟨e, he, _⟩
    cases hg : t.getSession to_ with
    | none => exact Or.inl rfl
    | some s =>
        by_cases hc : s.id ≠ sid ∨ s.destroyed = true
        · exact Or.inr ⟨s, rfl, hc⟩
        · rw [ev_ok s hg hc] at he
          exact absurd he (by simp)
  · rintro (hg | ⟨s, hg, hc⟩)
    · exact ⟨_, ev_none hg, Or.inl rfl⟩
    · exact ⟨_, ev_bad s hg hc, Or.inr rfl⟩
  · intro s hg hid hds
    exact ev_ok s hg (by simp [hid, hds])

/-- Witness for C9: a live matching session accepts the send; after the peer
session is replaced by one with another id, the same closure parameters fail
with scope ended. -/
theorem session_bound_send_spec_witness :
    (WebSocketClientTransport.session_bound_send
        { status := "open", client_id := "c", server_id := "srv",
          sessions := [("srv", Session.init "S" "c" "srv")], retry_budget := {},
          reconnect_on_connection_drop := true, connect_on_invoke := true }
        "srv" "S" "m1" { payload := PVal.null, stream_id := "x" }).isOk = true ∧
    (∃ e, WebSocketClientTransport.session_bound_send
        { status := "open", client_id := "c", server_id := "srv",
          sessions := [("srv", Session.init "S2" "c" "srv")], retry_budget := {},
          reconnect_on_connection_drop := true, connect_on_invoke := true }
        "srv" "S" "m1" { payload := PVal.null, stream_id := "x" } = .error e ∧
        (e = "Session scope ended (closed)" ∨ e = "Session scope ended (transition)")) := by
  constructor
  · rw [(session_bound_send_spec
      { status := "open", client_id := "c", server_id := "srv",
        sessions := [("srv", Session.init "S" "c" "srv")], retry_budget := {},
        reconnect_on_connection_drop := true, connect_on_invoke := true }
      "srv" "S" "m1" { payload := PVal.null, stream_id := "x" }).2
      (Session.init "S" "c" "srv") rfl rfl rfl]
    rfl
  · exact (session_bound_send_spec
      { status := "open", client_id := "c", server_id := "srv",
        sessions := [("srv", Session.init "S2" "c" "srv")], retry_budget := {},
        reconnect_on_connection_drop := true, connect_on_invoke := true }
      "srv" "S" "m1" { payload := PVal.null, stream_id := "x" }).1.mpr
      (Or.inr ⟨Session.init "S2" "c" "srv", rfl, Or.inl (by decide)⟩)

/-- C10: a byte input that decodes to a dictionary holding id, from, to, seq,
ack, payload, and streamId (wire-typed) but omitting controlFlags decodes
successfully into a message with control_flags 0; omitted serviceName,
procedureName, and tracing likewise default to None. -/
theorem from_buffer_defaults {W : Type} (c : Codec W) (buf : W)
    (kvs : List (String × PVal)) (i f t2 sid : String) (sq ak : Nat) (pl : PVal)
    (hdec : c.from_buffer buf = some (.map kvs))
    (hid : dictGet kvs "id" = some (.str i))
    (hfrom : dictGet kvs "from" = some (.str f))
    (hto : dictGet kvs "to" = some (.str t2))
    (hseq : dictGet kvs "seq" = some (.int sq))
    (hack : dictGet kvs "ack" = some (.int ak))
    (hpl : dictGet kvs "payload" = some pl)
    (hsid : dictGet kvs "streamId" = some (.str sid))
    (hcf : dictGet kvs "controlFlags" = none)
    (hsn : dictGet kvs "serviceName" = none)
    (hpn : dictGet kvs "procedureName" = none)
    (htr : dictGet kvs "tracing" = none) :
    CodecMessageAdapter.from_buffer c buf =
      .ok { id := i, from_ := f, to_ := t2, seq := sq, ack := ak, payload := pl,
            stream_id := sid, control_flags := 0, service_name := none,
            procedure_name := none, tracing := none } := by
  have hfind : requiredFields.find? (fun fl => (dictGet kvs fl).isNone) = none := by
    rw [List.find?_eq_none]
    intro x hx
    simp only [requiredFields, List.mem_cons, List.not_mem_nil, or_false] at hx
    rcases hx with rfl | rfl | rfl | rfl | rfl | rfl | rfl <;>
      simp [hid, hfrom, hto, hseq, hack, hpl, hsid]
  have hfd : TransportMessage.from_dict kvs =
      some { id := i, from_ := f, to_ := t2, seq := sq, ack := ak, payload := pl,
             stream_id := sid, control_flags := 0, service_name := none,
             procedure_name := none, tracing := none } := by
    rw [TransportMessage.from_dict]
    simp [hid, hfrom, hto, hseq, hack, hpl, hsid, hcf, hsn, hpn, htr,
      asStr, asNat, asOptStr, asOptTracing]
  rw [CodecMessageAdapter.from_buffer, hdec]
  show (match requiredFields.find? (fun fl => (dictGet kvs fl).isNone) with
    | some fl => Except.error ("Missing required field: " ++ fl)
    | none =>
        match TransportMessage.from_dict kvs with
        | some m => Except.ok m
        | none => Except.error "Failed to deserialize message") = _
  rw [hfind, hfd]

/-- Witness for C10 at a concrete seven-key wire dictionary. -/
theorem from_buffer_defaults_witness :
    CodecMessageAdapter.from_buffer binaryCodec
      (PVal.map [("id", PVal.str "w10"), ("from", PVal.str "SERVER"),
        ("to", PVal.str "client"), ("seq", PVal.int 3), ("ack", PVal.int 2),
        ("payload", PVal.str "p"), ("streamId", PVal.str "sw")]) =
      .ok { id := "w10", from_ := "SERVER", to_ := "client", seq := 3, ack := 2,
            payload := PVal.str "p", stream_id := "sw", control_flags := 0,
            service_name := none, procedure_name := none, tracing := none } :=
  from_buffer_defaults binaryCodec _ _ "w10" "SERVER" "client" "sw" 3 2 (PVal.str "p")
    rfl rfl rfl rfl rfl rfl rfl rfl rfl rfl rfl rfl

/-- C4 (amended): decoding fails with a validation error whenever the decoded
form is a dictionary missing one of the required keys id, from, to, seq, ack,
payload, streamId, and whenever the byte input is not decodable (a missing
controlFlags does not fail: it defaults, see the C10 theorem). -/
theorem from_buffer_validation {W : Type} (c : Codec W) (buf : W) :
    (c.from_buffer buf = none →
      CodecMessageAdapter.from_buffer c buf = .error "Failed to deserialize message") ∧
    (∀ kvs fl, c.from_buffer buf = some (.map kvs) → fl ∈ requiredFields →
      dictGet kvs fl = none →
      ∃ e, CodecMessageAdapter.from_buffer c buf = .error e) := by
  constructor
  · intro h
    rw [CodecMessageAdapter.from_buffer, h]
  · intro kvs fl hdec hmem hnone
    have hsome : (requiredFields.find? (fun f => (dictGet kvs f).isNone)).isSome := by
      rw [List.find?_isSome]
      exact ⟨fl, hmem, by simp [hnone]⟩
    obtain ⟨fw, hfw⟩ := Option.isSome_iff_exists.mp hsome
    refine ⟨"Missing required field: " ++ fw, ?_⟩
    rw [CodecMessageAdapter.from_buffer, hdec]
    show (match requiredFields.find? (fun f => (dictGet kvs f).isNone) with
      | some f => Except.error ("Missing required field: " ++ f)
      | none =>
          match TransportMessage.from_dict kvs with
          | some m => Except.ok m
          | none => Except.error "Failed to deserialize message") = _
    rw [hfw]

/-- Witness for C4: an undecodable JSON input (a sentinel with invalid base64)
fails, and a dictionary missing the required key from fails. -/
theorem from_buffer_validation_witness :
    CodecMessageAdapter.from_buffer jsonCodec (JVal.obj [("$t", JVal.str "A")]) =
      .error "Failed to deserialize message" ∧
    (∃ e, CodecMessageAdapter.from_buffer binaryCodec
      (PVal.map [("id", PVal.str "x")]) = .error e) :=
  ⟨(from_buffer_validation jsonCodec (JVal.obj [("$t", JVal.str "A")])).1 rfl,
   (from_buffer_validation binaryCodec (PVal.map [("id", PVal.str "x")])).2
     [("id", PVal.str "x")] "from" rfl (by decide) rfl⟩

/-- Counterexample to C4 as stated: a wire dictionary holding the seven
required keys but no controlFlags is accepted by from_buffer (with flags 0),
whereas the claim says a missing controlFlags must fail validation. -/
theorem from_buffer_controlFlags_counterexample :
    dictGet [("id", PVal.str "m1"), ("from", PVal.str "SERVER"), ("to", PVal.str "c"),
      ("seq", PVal.int 0), ("ack", PVal.int 0), ("payload", PVal.int 7),
      ("streamId", PVal.str "st1")] "controlFlags" = none ∧
    CodecMessageAdapter.from_buffer binaryCodec
      (PVal.map [("id", PVal.str "m1"), ("from", PVal.str "SERVER"),
        ("to", PVal.str "c"), ("seq", PVal.int 0), ("ack", PVal.int 0),
        ("payload", PVal.int 7), ("streamId", PVal.str "st1")]) =
      .ok { id := "m1", from_ := "SERVER", to_ := "c", seq := 0, ack := 0,
            payload := PVal.int 7, stream_id := "st1", control_flags := 0,
            service_name := none, procedure_name := none, tracing := none } :=
  ⟨rfl, rfl⟩

/-- C1 (amended): on the message-data path, a message with seq below the
session ack is dropped with no state change and nothing dispatched; one with
seq above the ack closes the underlying connection (when present) with ack and
send buffer unchanged and nothing dispatched; one with seq equal to the ack
sets the ack to seq plus 1 and truncates the send buffer to the envelopes with
seq at least the message ack, dispatches the message exactly when its Ack bit
is clear, and for a swallowed heartbeat on a session that is not actively
heartbeating additionally appends the echoed heartbeat envelope to the
truncated buffer. -/
theorem on_message_data_spec (s : Session) (echoId : String) (msg : TransportMessage) :
    (msg.seq < s.ack →
      on_message_decoded s echoId msg =
        { session := s, dispatched := [], protocol_errors := [],
          ws_close_requested := false }) ∧
    (s.ack < msg.seq →
      (on_message_decoded s echoId msg).session = s ∧
      (on_message_decoded s echoId msg).dispatched = [] ∧
      (on_message_decoded s echoId msg).ws_close_requested = s.ws_present) ∧
    (msg.seq = s.ack →
      (on_message_decoded s echoId msg).session.ack = msg.seq + 1 ∧
      (is_ack msg.control_flags = false →
        (on_message_decoded s echoId msg).session.send_buffer =
          s.send_buffer.filter (fun m => msg.ack ≤ m.seq) ∧
        (on_message_decoded s echoId msg).dispatched = [msg]) ∧
      (is_ack msg.control_flags = true →
        (on_message_decoded s echoId msg).dispatched = [] ∧
        (s.is_actively_heartbeating = false →
          (on_message_decoded s echoId msg).session.send_buffer =
            s.send_buffer.filter (fun m => msg.ack ≤ m.seq) ++
              [{ id := echoId, from_ := s.from_id, to_ := s.to_id, seq := s.seq,
                 ack := msg.seq + 1, payload := ack_payload, stream_id := "heartbeat",
                 control_flags := AckBit, service_name := none, procedure_name := none,
                 tracing := none }]) ∧
        (s.is_actively_heartbeating = true →
          (on_message_decoded s echoId msg).session.send_buffer =
            s.send_buffer.filter (fun m => msg.ack ≤ m.seq)))) := by
  refine ⟨?_, ?_, ?_⟩
  · intro h
    rw [on_message_decoded, if_pos (by omega), if_pos h]
  · intro h
    rw [on_message_decoded, if_pos (by omega), if_neg (by omega)]
    exact ⟨rfl, rfl, rfl⟩
  · intro h
    rw [on_message_decoded, if_neg (by omega)]
    by_cases hA : is_ack msg.control_flags = true
    · rw [if_neg (by simp [hA])]
      by_cases hH : s.is_actively_heartbeating = true
      · rw [if_neg (by simp [Session.update_bookkeeping, hH])]
        exact ⟨rfl, fun hf => absurd hA (by simp [hf]),
          fun _ => ⟨rfl, fun hhf => absurd hH (by simp [hhf]), fun _ => rfl⟩⟩
      · have hH' : s.is_actively_heartbeating = false := by
          simpa using hH
        rw [if_pos (by simp [Session.update_bookkeeping, hH'])]
        refine ⟨rfl, fun hf => absurd hA (by simp [hf]), fun _ => ⟨rfl, fun _ => ?_,
          fun hht => absurd hht (by simp [hH'])⟩⟩
        simp [Session.send_heartbeat, Session.send, Session.construct_msg,
          Session.update_bookkeeping, heartbeat_message]
    · have hA' : is_ack msg.control_flags = false := by
        simpa using hA
      rw [if_pos hA']
      exact ⟨rfl, fun _ => ⟨rfl, rfl⟩, fun ht => absurd ht (by simp [hA'])⟩

/-- Witness for C1 exercising all three seq comparisons on concrete sessions
and messages. -/
theorem on_message_data_spec_witness :
    on_message_decoded
        { id := "S", from_id := "c", to_id := "srv", seq := 0, ack := 1, send_buffer := [],
          state := .Connected, ws_present := true, is_actively_heartbeating := false,
          destroyed := false } "e"
        { id := "m", from_ := "srv", to_ := "c", seq := 0, ack := 0, payload := PVal.null,
          stream_id := "x" } =
      { session :=
          { id := "S", from_id := "c", to_id := "srv", seq := 0, ack := 1,
            send_buffer := [], state := .Connected, ws_present := true,
            is_actively_heartbeating := false, destroyed := false },
        dispatched := [], protocol_errors := [], ws_close_requested := false } ∧
    (on_message_decoded
        { id := "S", from_id := "c", to_id := "srv", seq := 0, ack := 1, send_buffer := [],
          state := .Connected, ws_present := true, is_actively_heartbeating := false,
          destroyed := false } "e"
        { id := "m", from_ := "srv", to_ := "c", seq := 5, ack := 0, payload := PVal.null,
          stream_id := "x" }).ws_close_requested = true ∧
    (on_message_decoded
        { id := "S", from_id := "c", to_id := "srv", seq := 0, ack := 1, send_buffer := [],
          state := .Connected, ws_present := true, is_actively_heartbeating := false,
          destroyed := false } "e"
        { id := "m", from_ := "srv", to_ := "c", seq := 1, ack := 0, payload := PVal.null,
          stream_id := "x" }).dispatched =
      [{ id := "m", from_ := "srv", to_ := "c", seq := 1, ack := 0, payload := PVal.null,
          stream_id := "x" }] := by
  refine ⟨?_, ?_, ?_⟩
  · exact (on_message_data_spec _ "e" _).1 (by decide)
  · rw [((on_message_data_spec
      { id := "S", from_id := "c", to_id := "srv", seq := 0, ack := 1, send_buffer := [],
        state := .Connected, ws_present := true, is_actively_heartbeating := false,
        destroyed := false } "e"
      { id := "m", from_ := "srv", to_ := "c", seq := 5, ack := 0, payload := PVal.null,
        stream_id := "x" }).2.1 (by decide)).2.2]
  · exact (((on_message_data_spec
      { id := "S", from_id := "c", to_id := "srv", seq := 0, ack := 1, send_buffer := [],
        state := .Connected, ws_present := true, is_actively_heartbeating := false,
        destroyed := false } "e"
      { id := "m", from_ := "srv", to_ := "c", seq := 1, ack := 0, payload := PVal.null,
        stream_id := "x" }).2.2 (by decide)).2.1 (by decide)).2

/-- Counterexample to C1 as stated: an accepted heartbeat (Ack bit set, seq
equal to the session ack) on a client session leaves the send buffer equal to
the truncated prior buffer plus the echoed heartbeat envelope, not equal to
the truncated prior buffer as the claim requires. -/
theorem on_message_data_heartbeat_counterexample :
    ({ id := "m", from_ := "srv", to_ := "c", seq := 0, ack := 0, payload := ack_payload,
       stream_id := "heartbeat", control_flags := 1 } : TransportMessage).seq =
      ({ id := "S", from_id := "c", to_id := "srv", seq := 0, ack := 0, send_buffer := [],
         state := .Connected, ws_present := true, is_actively_heartbeating := false,
         destroyed := false } : Session).ack ∧
    (on_message_decoded
        { id := "S", from_id := "c", to_id := "srv", seq := 0, ack := 0, send_buffer := [],
          state := .Connected, ws_present := true, is_actively_heartbeating := false,
          destroyed := false } "echo"
        { id := "m", from_ := "srv", to_ := "c", seq := 0, ack := 0, payload := ack_payload,
          stream_id := "heartbeat", control_flags := 1 }).session.send_buffer =
      [{ id := "echo", from_ := "c", to_ := "srv", seq := 0, ack := 1,
         payload := ack_payload, stream_id := "heartbeat", control_flags := 1 }] ∧
    ({ id := "S", from_id := "c", to_id := "srv", seq := 0, ack := 0, send_buffer := [],
       state := .Connected, ws_present := true, is_actively_heartbeating := false,
       destroyed := false } : Session).send_buffer.filter
        (fun m =>
          ({ id := "m", from_ := "srv", to_ := "c", seq := 0, ack := 0,
             payload := ack_payload, stream_id := "heartbeat",
             control_flags := 1 } : TransportMessage).ack ≤ m.seq) = [] ∧
    ([{ id := "echo", from_ := "c", to_ := "srv", seq := 0, ack := 1,
        payload := ack_payload, stream_id := "heartbeat", control_flags := 1 }] :
      List TransportMessage) ≠ [] := by
  refine ⟨rfl, rfl, rfl, ?_⟩
  simp

/-- C3 (amended): breaking a readable that is closed with an empty queue and
not broken leaves iteration terminating normally with no values; in any state
other than closed-with-empty-queue, break sets broken and locked and clears
the queue unless the stream is already locked and broken (then break is a
no-op), and in all such states the first read after break yields exactly the
one synthesized READABLE_BROKEN error and iteration terminates, regardless of
how many values were queued. -/
theorem readable_break_spec (r : Readable) :
    (r.broken = false → r.closed = true → r.queue = [] →
      r.break_.iterate = ([], true)) ∧
    (¬ (r.locked = true ∧ r.broken = true) → ¬ (r.closed = true ∧ r.queue = []) →
      r.break_ = { r with locked := true, broken := true, queue := [] }) ∧
    (¬ (r.closed = true ∧ r.queue = []) →
      r.break_.iterate = ([readableBrokenError], true)) := by
  refine ⟨?_, ?_, ?_⟩
  · intro hb hc hq
    rw [Readable.break_, if_neg (by simp [hb]), if_pos (by simp [hc, hq])]
    rw [Readable.iterate, if_neg (by simp [hb])]
    simp [hq, hc]
  · intro hlb hcq
    rw [Readable.break_, if_neg hlb, if_neg (by simp [List.isEmpty_iff]; exact fun h1 h2 => hcq ⟨h1, h2⟩)]
  · intro hcq
    by_cases hlb : r.locked = true ∧ r.broken = true
    · rw [Readable.break_, if_pos hlb, Readable.iterate, if_pos hlb.2]
    · rw [Readable.break_, if_neg hlb,
        if_neg (by simp [List.isEmpty_iff]; exact fun h1 h2 => hcq ⟨h1, h2⟩)]
      rw [Readable.iterate]
      rfl

/-- Witness for C3: a done stream survives break as a no-op for iteration; a
fresh stream with one queued value breaks into the broken state and its next
read is the single synthesized error. -/
theorem readable_break_spec_witness :
    ({ queue := [], closed := true, broken := false, locked := false } :
        Readable).break_.iterate = ([], true) ∧
    ({ queue := [PVal.int 7], closed := false, broken := false, locked := false } :
        Readable).break_ =
      { queue := [], closed := false, broken := true, locked := true } ∧
    ({ queue := [PVal.int 7], closed := false, broken := false, locked := false } :
        Readable).break_.iterate = ([readableBrokenError], true) := by
  refine ⟨?_, ?_, ?_⟩
  · exact (readable_break_spec _).1 rfl rfl rfl
  · exact (readable_break_spec
      { queue := [PVal.int 7], closed := false, broken := false, locked := false }).2.1
      (by simp) (by simp)
  · exact (readable_break_spec
      { queue := [PVal.int 7], closed := false, broken := false, locked := false }).2.2
      (by simp)

/-- Counterexample to C3 as stated: break on an already-locked-and-broken
stream with queued values (reachable by break then push) does not clear the
queue; and break on a closed-empty-but-broken stream (reachable by break then
close) leaves a stream whose iteration yields the broken error, not the
claimed normal done state with no values. -/
theorem readable_break_counterexample :
    Readable.init.break_.push_value (PVal.int 0) =
      some { queue := [PVal.int 0], closed := false, broken := true, locked := true } ∧
    ({ queue := [PVal.int 0], closed := false, broken := true, locked := true } :
        Readable).break_ =
      { queue := [PVal.int 0], closed := false, broken := true, locked := true } ∧
    ¬ (({ queue := [PVal.int 0], closed := false, broken := true, locked := true } :
        Readable).queue = []) ∧
    Readable.init.break_.trigger_close =
      some { queue := [], closed := true, broken := true, locked := true } ∧
    ({ queue := [], closed := true, broken := true, locked := true } :
        Readable).break_.iterate = ([readableBrokenError], true) ∧
    ([readableBrokenError], true) ≠ (([] : List PVal), true) := by
  refine ⟨rfl, rfl, by simp, rfl, rfl, by simp [readableBrokenError, err_result]⟩

theorem strEntries_map (tr : List (String × String)) :
    strEntries (tr.map (fun kv => (kv.1, PVal.str kv.2))) = some tr := by
  induction tr with
  | nil => rfl
  | cons kv rest ih =>
      obtain ⟨k, v⟩ := kv
      simp [strEntries, ih]

/-- from_dict inverts to_dict. -/
theorem from_dict_to_dict (m : TransportMessage) :
    TransportMessage.from_dict m.to_dict = some m := by
  obtain ⟨i, f, t2, sq, ak, pl, sid, cf, sn, pn, tr⟩ := m
  rcases sn with _ | sn <;> rcases pn with _ | pn <;> rcases tr with _ | tr <;>
    simp [TransportMessage.to_dict, TransportMessage.from_dict, dictGet, List.find?,
      asStr, asNat, asOptStr, asOptTracing, strEntries_map, Int.toNat_natCast,
      Int.natCast_nonneg]

/-- to_dict always carries the required wire keys. -/
theorem to_dict_required (m : TransportMessage) :
    requiredFields.find? (fun fl => (dictGet m.to_dict fl).isNone) = none := by
  rw [List.find?_eq_none]
  intro x hx
  simp only [requiredFields, List.mem_cons, List.not_mem_nil, or_false] at hx
  obtain ⟨i, f, t2, sq, ak, pl, sid, cf, sn, pn, tr⟩ := m
  rcases hx with rfl | rfl | rfl | rfl | rfl | rfl | rfl <;>
    simp [TransportMessage.to_dict, dictGet, List.find?]

/-- The adapter accepts any buffer that decodes to a message's wire dict. -/
theorem adapter_from_buffer_of_decode {W : Type} (c : Codec W) (buf : W)
    (m : TransportMessage) (hdec : c.from_buffer buf = some (.map m.to_dict)) :
    CodecMessageAdapter.from_buffer c buf = .ok m := by
  rw [CodecMessageAdapter.from_buffer, hdec]
  show (match requiredFields.find? (fun fl => (dictGet m.to_dict fl).isNone) with
    | some fl => Except.error ("Missing required field: " ++ fl)
    | none =>
        match TransportMessage.from_dict m.to_dict with
        | some mm => Except.ok mm
        | none => Except.error "Failed to deserialize message") = Except.ok m
  rw [to_dict_required m, from_dict_to_dict m]

theorem pyGoodKVs_append (a b : List (String × PVal)) :
    pyGoodKVs (a ++ b) = (pyGoodKVs a && pyGoodKVs b) := by
  induction a with
  | nil => simp [pyGoodKVs]
  | cons kv rest ih =>
      obtain ⟨k, v⟩ := kv
      simp [pyGoodKVs, ih, Bool.and_assoc]

theorem pyGoodKVs_strs (tr : List (String × String)) :
    pyGoodKVs (tr.map (fun kv => (kv.1, PVal.str kv.2))) = true := by
  induction tr with
  | nil => rfl
  | cons kv rest ih =>
      obtain ⟨k, v⟩ := kv
      simp [pyGoodKVs, ih, pyGood]

/-- The wire dict of a message with a good payload and good tracing is a good
value (the envelope itself never has a sentinel shape). -/
theorem pyGood_to_dict (m : TransportMessage) (hp : pyGood m.payload = true)
    (ht : tracingGood m.tracing = true) : pyGood (.map m.to_dict) = true := by
  obtain ⟨i, f, t2, sq, ak, pl, sid, cf, sn, pn, tr⟩ := m
  rcases sn with _ | sn <;> rcases pn with _ | pn <;> rcases tr with _ | tr <;>
    simp_all [TransportMessage.to_dict, pyGood, pyGoodKVs, pyGoodKVs_append,
      isSentinelShape, tracingGood, pyGoodKVs_strs]

theorem applySessionOp_send (s : Session) (all : List TransportMessage)
    (nid : String) (q : PartialTransportMessage) :
    applySessionOp (s, all) (.send nid q) = ((s.send nid q).1, all ++ [(s.send nid q).2.1]) :=
  rfl

theorem applySessionOp_update (s : Session) (all : List TransportMessage) (a q : Nat) :
    applySessionOp (s, all) (.update a q) = (s.update_bookkeeping a q, all) :=
  rfl

theorem send_buffer_eq (s : Session) (nid : String) (q : PartialTransportMessage) :
    (s.send nid q).1.send_buffer = s.send_buffer ++ [(s.send nid q).2.1] :=
  rfl

theorem send_seq_eq (s : Session) (nid : String) (q : PartialTransportMessage) :
    (s.send nid q).1.seq = s.seq + 1 :=
  rfl

theorem send_msg_seq (s : Session) (nid : String) (q : PartialTransportMessage) :
    (s.send nid q).2.1.seq = s.seq :=
  rfl

/-- Filtering a seq-consecutive list by a lower seq bound drops a prefix. -/
theorem filter_seq_drop (l : List TransportMessage) (base a : Nat)
    (h : ∀ i, (hi : i < l.length) → (l.get ⟨i, hi⟩).seq = base + i) :
    l.filter (fun m => a ≤ m.seq) = l.drop (a - base) := by
  induction l generalizing base with
  | nil => simp
  | cons x t ih =>
      have hx : x.seq = base := by
        have h0 := h 0 (by simp)
        simpa using h0
      have ht : ∀ i, (hi : i < t.length) → (t.get ⟨i, hi⟩).seq = (base + 1) + i := by
        intro i hi
        have h2 := h (i + 1) (by simpa using Nat.succ_lt_succ hi)
        have h3 : (t.get ⟨i, hi⟩).seq = base + (i + 1) := by simpa using h2
        omega
      by_cases hab : a ≤ base
      · have e0 : a - base = 0 := by omega
        have e1 : a - (base + 1) = 0 := by omega
        rw [List.filter_cons, if_pos (by simp only [hx, decide_eq_true_eq]; omega),
          ih (base + 1) ht, e0, e1]
        simp
      · have e2 : a - base = (a - (base + 1)) + 1 := by omega
        rw [List.filter_cons, if_neg (by simp only [hx, decide_eq_true_eq]; omega),
          ih (base + 1) ht, e2, List.drop_succ_cons]

/-- One send or update preserves the send-buffer invariant. -/
theorem applySessionOp_inv (s : Session) (all : List TransportMessage) (op : SessionOp)
    (h : SendBufferInv (s, all)) : SendBufferInv (applySessionOp (s, all) op) := by
  obtain ⟨k, hk, hbuf, hseq, hget⟩ := h
  cases op with
  | send nid q =>
      rw [applySessionOp_send]
      refine ⟨k, ?_, ?_, ?_, ?_⟩
      · simp only [List.length_append, List.length_cons, List.length_nil]
        omega
      · rw [send_buffer_eq, hbuf, List.drop_append_of_le_length hk]
      · rw [send_seq_eq, hseq]
        simp
      · intro i hi
        simp only [List.length_append, List.length_cons, List.length_nil] at hi
        by_cases hil : i < all.length
        · rw [List.get_eq_getElem, List.getElem_append_left hil]
          have := hget i hil
          rw [List.get_eq_getElem] at this
          exact this
        · have hie : i = all.length := by omega
          subst hie
          rw [List.get_eq_getElem, List.getElem_append_right (by simp)]
          simp [send_msg_seq, hseq]
  | update a q =>
      rw [applySessionOp_update]
      have hΔ : ∀ i, (hi : i < (all.drop k).length) →
          ((all.drop k).get ⟨i, hi⟩).seq = k + i := by
        intro i hi
        have hki : k + i < all.length := by
          simp only [List.length_drop] at hi
          omega
        rw [List.get_eq_getElem, List.getElem_drop]
        have := hget (k + i) hki
        rw [List.get_eq_getElem] at this
        simpa using this
      have hb2 : (s.update_bookkeeping a q).send_buffer =
          s.send_buffer.filter (fun m => a ≤ m.seq) := rfl
      have hfil : s.send_buffer.filter (fun m => a ≤ m.seq) = all.drop (k + (a - k)) := by
        rw [hbuf, filter_seq_drop (all.drop k) k a hΔ, List.drop_drop]
      refine ⟨min (k + (a - k)) all.length, by omega, ?_, hseq, hget⟩
      rw [hb2, hfil]
      rcases le_or_lt (k + (a - k)) all.length with hle | hlt
      · rw [min_eq_left hle]
      · rw [min_eq_right (le_of_lt hlt)]
        rw [List.drop_eq_nil_of_le (le_of_lt hlt), List.drop_eq_nil_of_le (le_refl _)]

/-- Any interleaving of sends and bookkeeping updates from a fresh session
maintains the send-buffer invariant. -/
theorem runSessionOps_inv (s0 : Session) (hb : s0.send_buffer = []) (hs : s0.seq = 0)
    (ops : List SessionOp) : SendBufferInv (runSessionOps s0 ops) := by
  have h0 : SendBufferInv (s0, ([] : List TransportMessage)) := by
    refine ⟨0, by simp, by simp [hb], by simp [hs], ?_⟩
    intro i hi
    simp at hi
  have hgen : ∀ (l : List SessionOp) (p : Session × List TransportMessage),
      SendBufferInv p → SendBufferInv (l.foldl applySessionOp p) := by
    intro l
    induction l with
    | nil => intro p h; exact h
    | cons op rest ih =>
        intro p h
        rw [List.foldl_cons]
        obtain ⟨s, all⟩ := p
        exact ih _ (applySessionOp_inv s all op h)
  exact hgen ops (s0, []) h0

/-- C2: under every interleaving of Session.send and
Session.update_bookkeeping from a fresh session, the buffered seqs are
strictly increasing consecutive integers, the first buffered envelope has the
least buffered seq, and the buffer equals the list of all envelopes ever
constructed filtered to those with seq at least the first buffered seq — an
ordered contiguous suffix of the envelope timeline with nothing unacked
missing. -/
theorem send_buffer_suffix (sid fid tid : String) (ops : List SessionOp) :
    (∀ i m m',
      (runSessionOps (Session.init sid fid tid) ops).1.send_buffer[i]? = some m →
      (runSessionOps (Session.init sid fid tid) ops).1.send_buffer[i + 1]? = some m' →
      m'.seq = m.seq + 1) ∧
    (∀ h0, (runSessionOps (Session.init sid fid tid) ops).1.send_buffer.head? = some h0 →
      (∀ m ∈ (runSessionOps (Session.init sid fid tid) ops).1.send_buffer, h0.seq ≤ m.seq) ∧
      (runSessionOps (Session.init sid fid tid) ops).1.send_buffer =
        (runSessionOps (Session.init sid fid tid) ops).2.filter
          (fun m => h0.seq ≤ m.seq)) := by
  have hinv := runSessionOps_inv (Session.init sid fid tid) rfl rfl ops
  set P := runSessionOps (Session.init sid fid tid) ops with hP
  obtain ⟨k, hk, hbuf, hseq, hget⟩ := hinv
  rw [show List.foldl applySessionOp (Session.init sid fid tid, []) ops = P from rfl]
    at hk hbuf hseq hget
  have hbget : ∀ i m, P.1.send_buffer[i]? = some m → m.seq = k + i := by
    intro i m hm
    rw [hbuf, List.getElem?_drop] at hm
    obtain ⟨hki, hel⟩ := List.getElem?_eq_some_iff.mp hm
    have h2 := hget (k + i) hki
    rw [List.get_eq_getElem] at h2
    rw [← hel]
    exact h2
  constructor
  · intro i m m' hm hm'
    rw [hbget i m hm, hbget (i + 1) m' hm']
    omega
  · intro h0 hh
    rw [List.head?_eq_getElem?] at hh
    have h0seq : h0.seq = k := by
      have := hbget 0 h0 hh
      omega
    constructor
    · intro m hm
      obtain ⟨i, hmi⟩ := List.mem_iff_getElem?.mp hm
      have := hbget i m hmi
      omega
    · have hfl := filter_seq_drop P.2 0 k
        (by intro i hi; simpa using hget i hi)
      simp only [Nat.sub_zero] at hfl
      rw [h0seq, hfl]
      exact hbuf

/-- Witness for C2 at concrete operation sequences: two sends produce
consecutive buffered seqs, and after an update acknowledging seq 0 the buffer
equals the constructed envelopes filtered from the head seq. -/
theorem send_buffer_suffix_witness :
    ({ id := "b", from_ := "c", to_ := "srv", seq := 1, ack := 0, payload := PVal.null,
       stream_id := "x" } : TransportMessage).seq =
      ({ id := "a", from_ := "c", to_ := "srv", seq := 0, ack := 0, payload := PVal.null,
         stream_id := "x" } : TransportMessage).seq + 1 ∧
    (runSessionOps (Session.init "S" "c" "srv")
        [SessionOp.send "a" { payload := PVal.null, stream_id := "x" },
         SessionOp.send "b" { payload := PVal.null, stream_id := "x" },
         SessionOp.update 1 9]).1.send_buffer =
      (runSessionOps (Session.init "S" "c" "srv")
        [SessionOp.send "a" { payload := PVal.null, stream_id := "x" },
         SessionOp.send "b" { payload := PVal.null, stream_id := "x" },
         SessionOp.update 1 9]).2.filter
        (fun m =>
          ({ id := "b", from_ := "c", to_ := "srv", seq := 1, ack := 0,
             payload := PVal.null, stream_id := "x" } : TransportMessage).seq ≤ m.seq) := by
  constructor
  · exact (send_buffer_suffix "S" "c" "srv"
      [SessionOp.send "a" { payload := PVal.null, stream_id := "x" },
       SessionOp.send "b" { payload := PVal.null, stream_id := "x" }]).1 0 _ _ rfl rfl
  · exact ((send_buffer_suffix "S" "c" "srv"
      [SessionOp.send "a" { payload := PVal.null, stream_id := "x" },
       SessionOp.send "b" { payload := PVal.null, stream_id := "x" },
       SessionOp.update 1 9]).2 _ rfl).2

/-- C5 (amended): decode-of-encode is the identity for the msgpack codec on
every message, and for the JSON codec on every message whose payload (and
tracing) is well formed and nowhere shaped like the decoder's single-key
sentinel objects; a bytes field survives the JSON codec exactly through the
base64 sentinel object. -/
theorem codec_roundtrip (m : TransportMessage) (bs : List Nat) :
    (pyGood m.payload = true → tracingGood m.tracing = true →
      CodecMessageAdapter.from_buffer jsonCodec
        (CodecMessageAdapter.to_buffer jsonCodec m) = .ok m) ∧
    CodecMessageAdapter.from_buffer binaryCodec
      (CodecMessageAdapter.to_buffer binaryCodec m) = .ok m ∧
    ((∀ x ∈ bs, x < 256) →
      jencode (.bytes bs) = .obj [("$t", .str (b64encodeStr bs))] ∧
      jdecode (.obj [("$t", .str (b64encodeStr bs))]) = some (.bytes bs)) := by
  refine ⟨?_, ?_, ?_⟩
  · intro hp ht
    exact adapter_from_buffer_of_decode jsonCodec _ m
      (jdecode_jencode (.map m.to_dict) (pyGood_to_dict m hp ht))
  · exact adapter_from_buffer_of_decode binaryCodec _ m rfl
  · intro hbs
    have hgood : pyGood (PVal.bytes bs) = true := by
      simp only [pyGood, List.all_eq_true, decide_eq_true_eq]
      exact hbs
    have := jdecode_jencode (.bytes bs) hgood
    rw [jencode] at this
    exact ⟨rfl, this⟩

/-- Witness for C5 at a concrete message with nested bytes payload, optional
fields, and tracing, and at concrete bytes. -/
theorem codec_roundtrip_witness :
    CodecMessageAdapter.from_buffer jsonCodec (CodecMessageAdapter.to_buffer jsonCodec
      { id := "w5", from_ := "c", to_ := "srv", seq := 1, ack := 2,
        payload := PVal.map [("data", PVal.bytes [0, 1, 255]), ("n", PVal.int 5)],
        stream_id := "sw5", control_flags := 2, service_name := some "svc",
        procedure_name := some "proc", tracing := some [("k", "v")] }) =
      .ok
        { id := "w5", from_ := "c", to_ := "srv", seq := 1, ack := 2,
          payload := PVal.map [("data", PVal.bytes [0, 1, 255]), ("n", PVal.int 5)],
          stream_id := "sw5", control_flags := 2, service_name := some "svc",
          procedure_name := some "proc", tracing := some [("k", "v")] } ∧
    jdecode (.obj [("$t", .str (b64encodeStr [0, 1, 255]))]) = some (.bytes [0, 1, 255]) :=
  ⟨(codec_roundtrip
      { id := "w5", from_ := "c", to_ := "srv", seq := 1, ack := 2,
        payload := PVal.map [("data", PVal.bytes [0, 1, 255]), ("n", PVal.int 5)],
        stream_id := "sw5", control_flags := 2, service_name := some "svc",
        procedure_name := some "proc", tracing := some [("k", "v")] }
      [0, 1, 255]).1 rfl rfl,
   ((codec_roundtrip
      { id := "w5", from_ := "c", to_ := "srv", seq := 1, ack := 2,
        payload := PVal.map [("data", PVal.bytes [0, 1, 255]), ("n", PVal.int 5)],
        stream_id := "sw5", control_flags := 2, service_name := some "svc",
        procedure_name := some "proc", tracing := some [("k", "v")] }
      [0, 1, 255]).2.2 (by decide)).2⟩

/-- Counterexample to C5 as stated: a payload that is an ordinary one-entry
string map whose key is the dollar-t sentinel is turned into bytes by the JSON
codec's object hook, so decode of encode is not the identity on it. -/
theorem json_roundtrip_counterexample :
    CodecMessageAdapter.from_buffer jsonCodec (CodecMessageAdapter.to_buffer jsonCodec
      { id := "m5", from_ := "c", to_ := "srv", seq := 0, ack := 0,
        payload := PVal.map [("$t", PVal.str "AAAA")], stream_id := "s5" }) =
      .ok
        { id := "m5", from_ := "c", to_ := "srv", seq := 0, ack := 0,
          payload := PVal.bytes [0, 0, 0], stream_id := "s5" } ∧
    PVal.map [("$t", PVal.str "AAAA")] ≠ PVal.bytes [0, 0, 0] ∧
    ({ id := "m5", from_ := "c", to_ := "srv", seq := 0, ack := 0,
       payload := PVal.map [("$t", PVal.str "AAAA")], stream_id := "s5" } :
        TransportMessage) ≠
      { id := "m5", from_ := "c", to_ := "srv", seq := 0, ack := 0,
        payload := PVal.bytes [0, 0, 0], stream_id := "s5" } := by
  refine ⟨rfl, by simp, ?_⟩
  intro hEq
  have := congrArg TransportMessage.payload hEq
  simp at this

end River
